import Mathlib

/-
Verification of `generate_tax_brackets.py`, the tax-bracket generator of the
RRSP Loan Maximizer calculator.  The script fetches Canadian federal and
provincial income-tax brackets from the `canatax` rate provider, normalizes
each jurisdiction's `(rate_percentage, upper_bound)` pairs into bracket
records, assembles one document, and writes it as JSON.

Embedding conventions:
- Python numbers are modelled as rationals (`ℚ`); the float positive-infinity
  sentinel `float('inf')` is the constructor `Bound.inf`.
- The rate provider (the `canatax` classes in the `tax_rate_classes` dict)
  is modelled as a function from a class name to `Except String`: `Except.ok`
  is a successful construction returning the `.brackets` attribute,
  `Except.error` is a raised exception caught by the script.
- `sys.exit(1)` / "no file written" is modelled by `Option.none` results.
-/

namespace TaxGen

/-- Upper bound of a raw provider bracket: a finite number, or the
`float('inf')` sentinel used by canatax for the top bracket. -/
inductive Bound where
  | fin (q : ℚ)
  | inf
deriving DecidableEq, Repr

instance : Inhabited Bound := ⟨Bound.fin 0⟩

/-- A raw canatax bracket tuple `(rate_percentage, max_amount)`. -/
abbrev RawPair := ℚ × Bound

/-- The serialized `max` field of an output bracket: a number, or the literal
string `"Infinity"`. -/
inductive SMax where
  | num (q : ℚ)
  | strInfinity
deriving DecidableEq, Repr

/-- One normalized output bracket `{min, max, rate}` as built by
`format_brackets`.  The `min` field holds the raw Python value that the script
stores there (`0`, or the previous tuple's `max_amount`, which is a number or
the float infinity); the `max` field holds the serializable value. -/
structure Bracket where
  min : Bound
  max : SMax
  rate : ℚ
deriving DecidableEq, Repr

/-- The branch `if max_val == float('inf'): "Infinity" else max_val` of
`format_brackets` (lines 100-103). -/
def serializeMax (b : Bound) : SMax :=
  match b with
  | Bound.inf => SMax.strInfinity
  | Bound.fin q => SMax.num q

/-- Embedding of `format_brackets` (lines 86-111): iterate the tuple list with
its index; `min` is `0` at index 0 and otherwise `brackets[i-1][1]`; `max` is
the serialized upper bound; `rate` is `rate_pct / 100`. -/
def format_brackets (brackets : List RawPair) : List Bracket :=
  (List.range brackets.length).map (fun i =>
    { min := if i = 0 then Bound.fin 0 else (brackets.getD (i - 1) default).2
      max := serializeMax (brackets.getD i default).2
      rate := (brackets.getD i default).1 / 100 })

/-- Python `==` between the value stored in a `min` field and the value stored
in a `max` field: two numbers compare by value; a number and the string
`"Infinity"` are never equal; the float infinity and the string `"Infinity"`
are never equal. -/
def pyEqNum (b : Bound) (m : SMax) : Prop :=
  match b, m with
  | Bound.fin q, SMax.num r => q = r
  | _, _ => False

/-- Strict ascending order on upper bounds: finite bounds compare by value,
every finite bound precedes the infinity sentinel, and nothing follows it. -/
def boundLt (a b : Bound) : Prop :=
  match a, b with
  | Bound.fin x, Bound.fin y => x < y
  | Bound.fin _, Bound.inf => True
  | Bound.inf, _ => False

/-- PROVINCE_NAMES (lines 42-56): province codes and their full names, in the
insertion order of the Python dict. -/
def PROVINCE_NAMES : List (String × String) :=
  [("AB", "Alberta"),
   ("BC", "British Columbia"),
   ("MB", "Manitoba"),
   ("NB", "New Brunswick"),
   ("NL", "Newfoundland and Labrador"),
   ("NS", "Nova Scotia"),
   ("NT", "Northwest Territories"),
   ("NU", "Nunavut"),
   ("ON", "Ontario"),
   ("PE", "Prince Edward Island"),
   ("QC", "Quebec"),
   ("SK", "Saskatchewan"),
   ("YT", "Yukon")]

/-- Iteration order of `PROVINCE_NAMES.keys()` in `generate_tax_data`. -/
def PROVINCE_CODES : List String := PROVINCE_NAMES.map Prod.fst

/-- PROVINCE_TO_CLASS (lines 59-73): province code to canatax class name. -/
def PROVINCE_TO_CLASS : List (String × String) :=
  [("AB", "AlbertaIncomeTaxRate"),
   ("BC", "BritishColumbiaIncomeTaxRate"),
   ("MB", "ManitobaIncomeTaxRate"),
   ("NB", "NewBrunswickIncomeTaxRate"),
   ("NL", "NewfoundlandIncomeTaxRate"),
   ("NS", "NovaScotiaIncomeTaxRate"),
   ("NT", "NorthwestTerritoriesIncomeTaxRate"),
   ("NU", "NunavutIncomeTaxRate"),
   ("ON", "OntarioIncomeTaxRate"),
   ("PE", "PEIIncomeTaxRate"),
   ("QC", "QuebecIncomeTaxRate"),
   ("SK", "SaskatchewanIncomeTaxRate"),
   ("YT", "YukonIncomeTaxRate")]

/-- Key set of the `tax_rate_classes` dict built in `generate_tax_data`
(lines 173-188). -/
def TAX_RATE_KEYS : List String :=
  ["FederalIncomeTaxRate",
   "AlbertaIncomeTaxRate",
   "BritishColumbiaIncomeTaxRate",
   "ManitobaIncomeTaxRate",
   "NewBrunswickIncomeTaxRate",
   "NewfoundlandIncomeTaxRate",
   "NovaScotiaIncomeTaxRate",
   "NorthwestTerritoriesIncomeTaxRate",
   "NunavutIncomeTaxRate",
   "OntarioIncomeTaxRate",
   "PEIIncomeTaxRate",
   "QuebecIncomeTaxRate",
   "SaskatchewanIncomeTaxRate",
   "YukonIncomeTaxRate"]

/-- Behaviour of the rate provider: instantiating the class named `cn` either
returns its `.brackets` tuple list or raises (with a message). -/
abbrev Provider := String → Except String (List RawPair)

/-- Embedding of `get_federal_brackets` (lines 114-128): instantiate
`FederalIncomeTaxRate` and format its brackets; any raised exception yields
`None`. -/
def get_federal_brackets (tcr : Provider) : Option (List Bracket) :=
  match tcr "FederalIncomeTaxRate" with
  | Except.ok bs => some (format_brackets bs)
  | Except.error _ => none

/-- A provincial entry `{"name": ..., "brackets": ...}`. -/
structure ProvEntry where
  name : String
  brackets : List Bracket
deriving DecidableEq, Repr

/-- Embedding of `get_provincial_brackets` (lines 131-156): look the code up
in PROVINCE_TO_CLASS; if there is no class name or it is not a key of
`tax_rate_classes`, return `None` ("No tax rate class found"); otherwise
instantiate the class and format, returning `None` if it raises. -/
def get_provincial_brackets (tcr : Provider) (province_code : String) :
    Option ProvEntry :=
  match PROVINCE_TO_CLASS.lookup province_code with
  | none => none
  | some cn =>
    if cn ∈ TAX_RATE_KEYS then
      match tcr cn with
      | Except.ok bs =>
          some { name := (PROVINCE_NAMES.lookup province_code).getD province_code
                 brackets := format_brackets bs }
      | Except.error _ => none
    else none

/-- The assembled document: `year`, `federal` bracket list, and the
`provincial` map in insertion order. -/
structure TaxDocument where
  year : ℕ
  federal : List Bracket
  provincial : List (String × ProvEntry)
deriving DecidableEq, Repr

/-- The provincial loop of `generate_tax_data` (lines 203-210): iterate
`PROVINCE_NAMES.keys()` in order, inserting each successful result and
skipping failures. -/
def build_provincial (tcr : Provider) : List (String × ProvEntry) :=
  PROVINCE_CODES.filterMap (fun code =>
    (get_provincial_brackets tcr code).map (fun b => (code, b)))

/-- Embedding of `generate_tax_data` (lines 159-216): fetch federal first,
exiting with status 1 (`none`) if it fails; then build the provincial map and
return the document with the hardcoded year 2025. -/
def generate_tax_data (tcr : Provider) : Option TaxDocument :=
  match get_federal_brackets tcr with
  | none => none
  | some federal =>
      some { year := 2025, federal := federal, provincial := build_provincial tcr }

/-- Deterministic rendering of a rational, modelling Python's deterministic
`repr` of the number stored in the document. -/
def renderQ (q : ℚ) : String :=
  if q.den = 1 then toString q.num
  else toString q.num ++ "/" ++ toString q.den

/-- A JSON string literal. -/
def jsonStr (s : String) : String := "\"" ++ s ++ "\""

/-- Rendering of a `min` field value by `json.dump`. -/
def renderMin (b : Bound) : String :=
  match b with
  | Bound.fin q => renderQ q
  | Bound.inf => "Infinity"

/-- Rendering of a `max` field value by `json.dump`: the string sentinel is
quoted, a number is not. -/
def renderMax (m : SMax) : String :=
  match m with
  | SMax.num q => renderQ q
  | SMax.strInfinity => jsonStr "Infinity"

/-- Modelled from the behaviour of `json.dump(..., indent=2)`: one bracket
object at indentation `ind`, keys in insertion order min, max, rate. -/
def renderBracket (ind : String) (b : Bracket) : String :=
  ind ++ "\x7b\n" ++
  ind ++ "  " ++ jsonStr "min" ++ ": " ++ renderMin b.min ++ ",\n" ++
  ind ++ "  " ++ jsonStr "max" ++ ": " ++ renderMax b.max ++ ",\n" ++
  ind ++ "  " ++ jsonStr "rate" ++ ": " ++ renderQ b.rate ++ "\n" ++
  ind ++ "\x7d"

/-- A bracket array at indentation `ind`, 2-space nesting. -/
def renderBrackets (ind : String) (bs : List Bracket) : String :=
  if bs.isEmpty then "[]"
  else "[\n" ++ String.intercalate ",\n" (bs.map (renderBracket (ind ++ "  ")))
       ++ "\n" ++ ind ++ "]"

/-- A provincial entry object at indentation `ind`, keys in insertion order
name, brackets. -/
def renderProvEntry (ind : String) (e : ProvEntry) : String :=
  "\x7b\n" ++
  ind ++ "  " ++ jsonStr "name" ++ ": " ++ jsonStr e.name ++ ",\n" ++
  ind ++ "  " ++ jsonStr "brackets" ++ ": " ++ renderBrackets (ind ++ "  ") e.brackets
  ++ "\n" ++ ind ++ "\x7d"

/-- The provincial map, keys in insertion order. -/
def renderProvincial (entries : List (String × ProvEntry)) : String :=
  if entries.isEmpty then "\x7b\x7d"
  else "\x7b\n" ++ String.intercalate ",\n"
    (entries.map (fun kv => "    " ++ jsonStr kv.1 ++ ": " ++ renderProvEntry "    " kv.2))
    ++ "\n  \x7d"

/-- Serialization of the whole document, modelling
`json.dump(tax_data, f, indent=2, ensure_ascii=False)` (line 238): a pure,
deterministic function of the document with fixed key order (year, federal,
provincial) and stable 2-space indentation. -/
def renderDoc (d : TaxDocument) : String :=
  "\x7b\n" ++
  "  " ++ jsonStr "year" ++ ": " ++ toString d.year ++ ",\n" ++
  "  " ++ jsonStr "federal" ++ ": " ++ renderBrackets "  " d.federal ++ ",\n" ++
  "  " ++ jsonStr "provincial" ++ ": " ++ renderProvincial d.provincial ++
  "\n\x7d"

/-- The output file name `f"tax_brackets_{year}.json"` (line 231). -/
def output_filename (tax_data : TaxDocument) : String :=
  "tax_brackets_" ++ toString tax_data.year ++ ".json"

/-- Embedding of `main` (lines 219-248): run `generate_tax_data`; on its
fatal failure the process exits non-zero having written nothing (`none`);
otherwise exactly one file, named from the document's year, is written with
the serialized document (`some (filename, content)`). -/
def main_result (tcr : Provider) : Option (String × String) :=
  match generate_tax_data tcr with
  | none => none
  | some tax_data => some (output_filename tax_data, renderDoc tax_data)

/-- Length of `format_brackets`' output: one record per input tuple. -/
theorem format_brackets_length (bs : List RawPair) :
    (format_brackets bs).length = bs.length := by
  simp [format_brackets]

/-- The record `format_brackets` builds at index `i`. -/
theorem format_brackets_getElem (bs : List RawPair) (i : ℕ)
    (h : i < (format_brackets bs).length) :
    (format_brackets bs)[i] =
      { min := if i = 0 then Bound.fin 0 else (bs.getD (i - 1) default).2
        max := serializeMax (bs.getD i default).2
        rate := (bs.getD i default).1 / 100 } := by
  simp [format_brackets]

/-- Sample federal input: the two 2025 tuples `[(15, 57375), (20.5, inf)]`
used by the spec's worked example. -/
def sampleFederal : List RawPair :=
  [((15 : ℚ), Bound.fin 57375), ((20.5 : ℚ), Bound.inf)]

/-- C9: a jurisdiction whose provider returns an empty sequence of bracket
pairs yields an empty sequence from `format_brackets`, not an error (the
function is total). -/
theorem format_brackets_empty : format_brackets [] = [] := rfl

/-- C6: whenever the output of `format_brackets` is non-empty, its first
bracket has `min = 0`. -/
theorem format_brackets_first_min_zero (bs : List RawPair)
    (h : 0 < (format_brackets bs).length) :
    ((format_brackets bs).get ⟨0, h⟩).min = Bound.fin 0 := by
  rw [List.get_eq_getElem, format_brackets_getElem bs 0 h]
  rfl

/-- Witness for C6 at the sample federal input. -/
theorem format_brackets_first_min_zero_witness :
    0 < (format_brackets sampleFederal).length ∧
    ((format_brackets sampleFederal).get ⟨0, by decide⟩).min = Bound.fin 0 :=
  ⟨by decide, format_brackets_first_min_zero sampleFederal (by decide)⟩

/-- C4: every output bracket's rate is exactly the input `rate_percentage`
divided by 100. -/
theorem format_brackets_rate_exact (bs : List RawPair) (i : ℕ)
    (h : i < bs.length) (h2 : i < (format_brackets bs).length) :
    ((format_brackets bs).get ⟨i, h2⟩).rate = (bs.get ⟨i, h⟩).1 / 100 := by
  rw [List.get_eq_getElem, List.get_eq_getElem, format_brackets_getElem bs i h2,
    List.getD_eq_getElem bs default h]

/-- Witness for C4: at the sample federal input, index 1 carries rate
`20.5 / 100 = 0.205` and index 0 carries `15 / 100 = 0.15`. -/
theorem format_brackets_rate_exact_witness :
    (1 < sampleFederal.length ∧ 1 < (format_brackets sampleFederal).length) ∧
    ((format_brackets sampleFederal).get ⟨1, by decide⟩).rate =
      (sampleFederal.get ⟨1, by decide⟩).1 / 100 ∧
    ((format_brackets sampleFederal).get ⟨1, by decide⟩).rate = (0.205 : ℚ) ∧
    ((format_brackets sampleFederal).get ⟨0, by decide⟩).rate = (0.15 : ℚ) :=
  ⟨⟨by decide, by decide⟩,
   format_brackets_rate_exact sampleFederal 1 (by decide) (by decide),
   by
     rw [format_brackets_rate_exact sampleFederal 1 (by decide) (by decide)]
     norm_num [sampleFederal],
   by
     rw [format_brackets_rate_exact sampleFederal 0 (by decide) (by decide)]
     norm_num [sampleFederal]⟩

/-- C5: an infinite upper bound serializes as the string `"Infinity"`, never
a number; a finite upper bound passes through unchanged as a number. -/
theorem format_brackets_max_serialization (bs : List RawPair) (i : ℕ)
    (h : i < bs.length) (h2 : i < (format_brackets bs).length) :
    ((bs.get ⟨i, h⟩).2 = Bound.inf →
      ((format_brackets bs).get ⟨i, h2⟩).max = SMax.strInfinity) ∧
    (∀ q : ℚ, (bs.get ⟨i, h⟩).2 = Bound.fin q →
      ((format_brackets bs).get ⟨i, h2⟩).max = SMax.num q) := by
  rw [List.get_eq_getElem, List.get_eq_getElem, format_brackets_getElem bs i h2,
    List.getD_eq_getElem bs default h]
  constructor
  · intro hb; simp [hb, serializeMax]
  · intro q hb; simp [hb, serializeMax]

/-- Witness for C5 at the sample federal input: the infinite bound at index 1
becomes the string sentinel, the finite bound 57375 at index 0 is unchanged. -/
theorem format_brackets_max_serialization_witness :
    (1 < sampleFederal.length ∧ 1 < (format_brackets sampleFederal).length) ∧
    ((sampleFederal.get ⟨1, by decide⟩).2 = Bound.inf →
      ((format_brackets sampleFederal).get ⟨1, by decide⟩).max = SMax.strInfinity) ∧
    (∀ q : ℚ, (sampleFederal.get ⟨1, by decide⟩).2 = Bound.fin q →
      ((format_brackets sampleFederal).get ⟨1, by decide⟩).max = SMax.num q) ∧
    ((format_brackets sampleFederal).get ⟨1, by decide⟩).max = SMax.strInfinity ∧
    ((format_brackets sampleFederal).get ⟨0, by decide⟩).max = SMax.num 57375 :=
  ⟨⟨by decide, by decide⟩,
   (format_brackets_max_serialization sampleFederal 1 (by decide) (by decide)).1,
   (format_brackets_max_serialization sampleFederal 1 (by decide) (by decide)).2,
   by decide, by decide⟩

/-- C1: for an input sequence ordered ascending by upper bound, the output of
`format_brackets` has the same length, and for every index `i > 0` the output
bracket's `min` is equal (as Python values) to the previous output bracket's
`max`. -/
theorem format_brackets_contiguous (bs : List RawPair)
    (hsort : List.Chain' boundLt (bs.map Prod.snd)) :
    (format_brackets bs).length = bs.length ∧
    ∀ i : ℕ, 0 < i →
      ∀ h : i < (format_brackets bs).length,
      ∀ h2 : i - 1 < (format_brackets bs).length,
      pyEqNum ((format_brackets bs).get ⟨i, h⟩).min
        ((format_brackets bs).get ⟨i - 1, h2⟩).max := by
  refine ⟨format_brackets_length bs, ?_⟩
  intro i hi h h2
  have hlen : i < bs.length := by
    rw [← format_brackets_length bs]; exact h
  have hlen1 : i - 1 < bs.length := by omega
  rw [List.get_eq_getElem, List.get_eq_getElem, format_brackets_getElem bs i h,
    format_brackets_getElem bs (i - 1) h2, List.getD_eq_getElem bs default hlen1]
  have hchain := List.chain'_iff_get.mp hsort (i - 1) (by simp; omega)
  simp only [List.get_eq_getElem, List.getElem_map] at hchain
  rw [if_neg (Nat.pos_iff_ne_zero.mp hi)]
  cases hb : bs[i - 1].2 with
  | inf =>
      rw [hb] at hchain
      exact hchain.elim
  | fin q =>
      exact rfl

/-- Witness for C1 at the sample federal input, which is strictly ascending. -/
theorem format_brackets_contiguous_witness :
    List.Chain' boundLt (sampleFederal.map Prod.snd) ∧
    ((format_brackets sampleFederal).length = sampleFederal.length ∧
     ∀ i : ℕ, 0 < i →
       ∀ h : i < (format_brackets sampleFederal).length,
       ∀ h2 : i - 1 < (format_brackets sampleFederal).length,
       pyEqNum ((format_brackets sampleFederal).get ⟨i, h⟩).min
         ((format_brackets sampleFederal).get ⟨i - 1, h2⟩).max) := by
  have hs : List.Chain' boundLt (sampleFederal.map Prod.snd) := by
    refine List.chain'_cons.mpr ⟨trivial, List.chain'_singleton _⟩
  exact ⟨hs, format_brackets_contiguous sampleFederal hs⟩

/-- A provider whose every construction raises. -/
def failProvider : Provider := fun _ => Except.error "boom"

/-- C2: when the provider raises while federal brackets are fetched,
`generate_tax_data` aborts (exit status 1) and `main` writes no output file:
the write happens only after the full document is assembled. -/
theorem federal_failure_no_output (tcr : Provider) (e : String)
    (h : tcr "FederalIncomeTaxRate" = Except.error e) :
    generate_tax_data tcr = none ∧ main_result tcr = none := by
  have hf : get_federal_brackets tcr = none := by
    unfold get_federal_brackets
    rw [h]
  constructor
  · unfold generate_tax_data
    rw [hf]
  · unfold main_result generate_tax_data
    rw [hf]

/-- Witness for C2 at the always-raising provider. -/
theorem federal_failure_no_output_witness :
    failProvider "FederalIncomeTaxRate" = Except.error "boom" ∧
    (generate_tax_data failProvider = none ∧ main_result failProvider = none) :=
  ⟨rfl, federal_failure_no_output failProvider "boom" rfl⟩

/-- A provider for which only federal construction succeeds (with no
brackets); every provincial construction raises. -/
def fedOnlyProvider : Provider := fun cn =>
  if cn = "FederalIncomeTaxRate" then Except.ok [] else Except.error "skip"

/-- C7: whenever `main` writes a file, the assembled document's year is the
hardcoded constant 2025 and the file name follows the pattern
`tax_brackets_<year>.json`, hence is exactly `tax_brackets_2025.json`. -/
theorem document_year_and_filename (tcr : Provider) (out : String × String)
    (h : main_result tcr = some out) :
    ∃ d : TaxDocument, generate_tax_data tcr = some d ∧ d.year = 2025 ∧
      out.1 = "tax_brackets_" ++ toString d.year ++ ".json" ∧
      out.1 = "tax_brackets_2025.json" := by
  unfold main_result at h
  cases hg : generate_tax_data tcr with
  | none =>
      rw [hg] at h
      exact absurd h (by simp)
  | some d =>
      rw [hg] at h
      have hout : (output_filename d, renderDoc d) = out := by
        simpa using h
      have hyear : d.year = 2025 := by
        unfold generate_tax_data at hg
        cases hfed : get_federal_brackets tcr with
        | none =>
            rw [hfed] at hg
            exact absurd hg (by simp)
        | some f =>
            rw [hfed] at hg
            simp only [Option.some.injEq] at hg
            rw [← hg]
      refine ⟨d, rfl, hyear, ?_, ?_⟩
      · rw [← hout]
        rfl
      · rw [← hout]
        show output_filename d = _
        unfold output_filename
        rw [hyear]
        rfl

/-- Witness for C7 at the federal-only provider. -/
theorem document_year_and_filename_witness :
    main_result fedOnlyProvider =
      some (output_filename { year := 2025, federal := [], provincial := [] },
            renderDoc { year := 2025, federal := [], provincial := [] }) ∧
    (∃ d : TaxDocument, generate_tax_data fedOnlyProvider = some d ∧
      d.year = 2025 ∧
      (output_filename { year := 2025, federal := [], provincial := [] },
        renderDoc { year := 2025, federal := [], provincial := [] }).1 =
        "tax_brackets_" ++ toString d.year ++ ".json" ∧
      (output_filename { year := 2025, federal := [], provincial := [] },
        renderDoc { year := 2025, federal := [], provincial := [] }).1 =
        "tax_brackets_2025.json") := by
  have hmain : main_result fedOnlyProvider =
      some (output_filename { year := 2025, federal := [], provincial := [] },
            renderDoc { year := 2025, federal := [], provincial := [] }) := by
    rfl
  exact ⟨hmain, document_year_and_filename fedOnlyProvider _ hmain⟩

/-- C8: document assembly and serialization are deterministic functions of
the provider data: two runs over providers returning identical data produce
the same file name and byte-identical file content. -/
theorem output_deterministic (p1 p2 : Provider)
    (h : ∀ cn, p1 cn = p2 cn) :
    main_result p1 = main_result p2 := by
  have hp : p1 = p2 := funext h
  rw [hp]

/-- Witness for C8: two runs over the same federal-only provider data. -/
theorem output_deterministic_witness :
    (∀ cn, fedOnlyProvider cn = fedOnlyProvider cn) ∧
    main_result fedOnlyProvider = main_result fedOnlyProvider :=
  ⟨fun _ => rfl, output_deterministic fedOnlyProvider fedOnlyProvider (fun _ => rfl)⟩

/-- Evaluation of `get_provincial_brackets` once the table lookups are
settled: the result depends only on whether the provider raises. -/
theorem get_provincial_brackets_eq (tcr : Provider) (code cn : String)
    (hl : PROVINCE_TO_CLASS.lookup code = some cn)
    (hm : cn ∈ TAX_RATE_KEYS) :
    get_provincial_brackets tcr code =
      match tcr cn with
      | Except.ok bs =>
          some { name := (PROVINCE_NAMES.lookup code).getD code
                 brackets := format_brackets bs }
      | Except.error _ => none := by
  unfold get_provincial_brackets
  rw [hl]
  exact if_pos hm

/-- A provider raising exactly for Quebec and succeeding everywhere else. -/
def qcFailProvider : Provider := fun cn =>
  if cn = "QuebecIncomeTaxRate" then Except.error "qc down" else Except.ok []

/-- C3: if the provider raises for exactly one province (QC) but succeeds for
federal and all other provinces, the document is still produced (exit 0), its
provincial map omits "QC" and contains the 12 remaining codes in order. -/
theorem single_province_failure_omitted (tcr : Provider) (e : String)
    (hqc : tcr "QuebecIncomeTaxRate" = Except.error e)
    (hok : ∀ cn, cn ≠ "QuebecIncomeTaxRate" → ∃ bs, tcr cn = Except.ok bs) :
    ∃ d : TaxDocument, generate_tax_data tcr = some d ∧
      d.provincial.map Prod.fst =
        ["AB", "BC", "MB", "NB", "NL", "NS", "NT", "NU", "ON", "PE", "SK", "YT"] ∧
      (main_result tcr).isSome = true := by
  obtain ⟨fbs, hf⟩ := hok "FederalIncomeTaxRate" (by decide)
  obtain ⟨ab, hab⟩ := hok "AlbertaIncomeTaxRate" (by decide)
  obtain ⟨bc, hbc⟩ := hok "BritishColumbiaIncomeTaxRate" (by decide)
  obtain ⟨mb, hmb⟩ := hok "ManitobaIncomeTaxRate" (by decide)
  obtain ⟨nb, hnb⟩ := hok "NewBrunswickIncomeTaxRate" (by decide)
  obtain ⟨nl, hnl⟩ := hok "NewfoundlandIncomeTaxRate" (by decide)
  obtain ⟨ns, hns⟩ := hok "NovaScotiaIncomeTaxRate" (by decide)
  obtain ⟨nt, hnt⟩ := hok "NorthwestTerritoriesIncomeTaxRate" (by decide)
  obtain ⟨nu, hnu⟩ := hok "NunavutIncomeTaxRate" (by decide)
  obtain ⟨onb, hon⟩ := hok "OntarioIncomeTaxRate" (by decide)
  obtain ⟨pe, hpe⟩ := hok "PEIIncomeTaxRate" (by decide)
  obtain ⟨sk, hsk⟩ := hok "SaskatchewanIncomeTaxRate" (by decide)
  obtain ⟨yt, hyt⟩ := hok "YukonIncomeTaxRate" (by decide)
  have hfed : get_federal_brackets tcr = some (format_brackets fbs) := by
    unfold get_federal_brackets
    rw [hf]
  have hAB := get_provincial_brackets_eq tcr "AB" "AlbertaIncomeTaxRate"
    (by decide) (by decide)
  have hBC := get_provincial_brackets_eq tcr "BC" "BritishColumbiaIncomeTaxRate"
    (by decide) (by decide)
  have hMB := get_provincial_brackets_eq tcr "MB" "ManitobaIncomeTaxRate"
    (by decide) (by decide)
  have hNB := get_provincial_brackets_eq tcr "NB" "NewBrunswickIncomeTaxRate"
    (by decide) (by decide)
  have hNL := get_provincial_brackets_eq tcr "NL" "NewfoundlandIncomeTaxRate"
    (by decide) (by decide)
  have hNS := get_provincial_brackets_eq tcr "NS" "NovaScotiaIncomeTaxRate"
    (by decide) (by decide)
  have hNT := get_provincial_brackets_eq tcr "NT" "NorthwestTerritoriesIncomeTaxRate"
    (by decide) (by decide)
  have hNU := get_provincial_brackets_eq tcr "NU" "NunavutIncomeTaxRate"
    (by decide) (by decide)
  have hON := get_provincial_brackets_eq tcr "ON" "OntarioIncomeTaxRate"
    (by decide) (by decide)
  have hPE := get_provincial_brackets_eq tcr "PE" "PEIIncomeTaxRate"
    (by decide) (by decide)
  have hQC := get_provincial_brackets_eq tcr "QC" "QuebecIncomeTaxRate"
    (by decide) (by decide)
  have hSK := get_provincial_brackets_eq tcr "SK" "SaskatchewanIncomeTaxRate"
    (by decide) (by decide)
  have hYT := get_provincial_brackets_eq tcr "YT" "YukonIncomeTaxRate"
    (by decide) (by decide)
  rw [hab] at hAB
  rw [hbc] at hBC
  rw [hmb] at hMB
  rw [hnb] at hNB
  rw [hnl] at hNL
  rw [hns] at hNS
  rw [hnt] at hNT
  rw [hnu] at hNU
  rw [hon] at hON
  rw [hpe] at hPE
  rw [hqc] at hQC
  rw [hsk] at hSK
  rw [hyt] at hYT
  have hbuild : (build_provincial tcr).map Prod.fst =
      ["AB", "BC", "MB", "NB", "NL", "NS", "NT", "NU", "ON", "PE", "SK", "YT"] := by
    unfold build_provincial
    rw [show PROVINCE_CODES =
      ["AB", "BC", "MB", "NB", "NL", "NS", "NT", "NU", "ON", "PE", "QC", "SK", "YT"]
      from rfl]
    simp [List.filterMap, hAB, hBC, hMB, hNB, hNL, hNS, hNT, hNU, hON, hPE, hQC,
      hSK, hYT]
  have hgen : generate_tax_data tcr =
      some { year := 2025, federal := format_brackets fbs,
             provincial := build_provincial tcr } := by
    unfold generate_tax_data
    rw [hfed]
  refine ⟨_, hgen, hbuild, ?_⟩
  unfold main_result
  rw [hgen]
  rfl

/-- Witness for C3 at the provider raising only for Quebec. -/
theorem single_province_failure_omitted_witness :
    (qcFailProvider "QuebecIncomeTaxRate" = Except.error "qc down" ∧
     ∀ cn, cn ≠ "QuebecIncomeTaxRate" → ∃ bs, qcFailProvider cn = Except.ok bs) ∧
    (∃ d : TaxDocument, generate_tax_data qcFailProvider = some d ∧
      d.provincial.map Prod.fst =
        ["AB", "BC", "MB", "NB", "NL", "NS", "NT", "NU", "ON", "PE", "SK", "YT"] ∧
      (main_result qcFailProvider).isSome = true) := by
  have h1 : qcFailProvider "QuebecIncomeTaxRate" = Except.error "qc down" := rfl
  have h2 : ∀ cn, cn ≠ "QuebecIncomeTaxRate" →
      ∃ bs, qcFailProvider cn = Except.ok bs := by
    intro cn hcn
    refine ⟨[], ?_⟩
    show (if cn = "QuebecIncomeTaxRate" then Except.error "qc down"
          else Except.ok []) = Except.ok []
    rw [if_neg hcn]
  exact ⟨⟨h1, h2⟩, single_province_failure_omitted qcFailProvider "qc down" h1 h2⟩

/-- One province's case of claim C10: with the two table facts settled, the
only way `get_provincial_brackets` returns `None` is a provider error. -/
theorem province_case (tcr : Provider) (code cn : String)
    (hl : PROVINCE_TO_CLASS.lookup code = some cn)
    (hm : cn ∈ TAX_RATE_KEYS) :
    (∃ cn2, PROVINCE_TO_CLASS.lookup code = some cn2 ∧ cn2 ∈ TAX_RATE_KEYS) ∧
    (get_provincial_brackets tcr code = none →
      ∃ cn2 e, PROVINCE_TO_CLASS.lookup code = some cn2 ∧
        tcr cn2 = Except.error e) := by
  refine ⟨⟨cn, hl, hm⟩, fun hn => ?_⟩
  rw [get_provincial_brackets_eq tcr code cn hl hm] at hn
  cases htc : tcr cn with
  | ok bs =>
      rw [htc] at hn
      exact absurd hn (by simp)
  | error e => exact ⟨cn, e, hl, htc⟩

/-- A provider whose every construction succeeds with no brackets. -/
def okProvider : Provider := fun _ => Except.ok []

/-- C10: every code iterated by the assembler is mapped by PROVINCE_TO_CLASS
to a class name that is a key of `tax_rate_classes`, so the "No tax rate class
found" branch of `get_provincial_brackets` is unreachable during a normal run
and the function returns `None` only when the provider raises. -/
theorem province_table_total (tcr : Provider) (code : String)
    (hcode : code ∈ PROVINCE_CODES) :
    (∃ cn2, PROVINCE_TO_CLASS.lookup code = some cn2 ∧ cn2 ∈ TAX_RATE_KEYS) ∧
    (get_provincial_brackets tcr code = none →
      ∃ cn2 e, PROVINCE_TO_CLASS.lookup code = some cn2 ∧
        tcr cn2 = Except.error e) := by
  have hcode' : code = "AB" ∨ code = "BC" ∨ code = "MB" ∨ code = "NB" ∨
      code = "NL" ∨ code = "NS" ∨ code = "NT" ∨ code = "NU" ∨ code = "ON" ∨
      code = "PE" ∨ code = "QC" ∨ code = "SK" ∨ code = "YT" := by
    simpa [PROVINCE_CODES, PROVINCE_NAMES] using hcode
  rcases hcode' with rfl | rfl | rfl | rfl | rfl | rfl | rfl | rfl | rfl |
    rfl | rfl | rfl | rfl
  · exact province_case tcr "AB" "AlbertaIncomeTaxRate" (by decide) (by decide)
  · exact province_case tcr "BC" "BritishColumbiaIncomeTaxRate" (by decide) (by decide)
  · exact province_case tcr "MB" "ManitobaIncomeTaxRate" (by decide) (by decide)
  · exact province_case tcr "NB" "NewBrunswickIncomeTaxRate" (by decide) (by decide)
  · exact province_case tcr "NL" "NewfoundlandIncomeTaxRate" (by decide) (by decide)
  · exact province_case tcr "NS" "NovaScotiaIncomeTaxRate" (by decide) (by decide)
  · exact province_case tcr "NT" "NorthwestTerritoriesIncomeTaxRate" (by decide) (by decide)
  · exact province_case tcr "NU" "NunavutIncomeTaxRate" (by decide) (by decide)
  · exact province_case tcr "ON" "OntarioIncomeTaxRate" (by decide) (by decide)
  · exact province_case tcr "PE" "PEIIncomeTaxRate" (by decide) (by decide)
  · exact province_case tcr "QC" "QuebecIncomeTaxRate" (by decide) (by decide)
  · exact province_case tcr "SK" "SaskatchewanIncomeTaxRate" (by decide) (by decide)
  · exact province_case tcr "YT" "YukonIncomeTaxRate" (by decide) (by decide)

/-- Witness for C10 at the code "AB" and the all-ok provider. -/
theorem province_table_total_witness :
    "AB" ∈ PROVINCE_CODES ∧
    ((∃ cn2, PROVINCE_TO_CLASS.lookup "AB" = some cn2 ∧ cn2 ∈ TAX_RATE_KEYS) ∧
     (get_provincial_brackets okProvider "AB" = none →
       ∃ cn2 e, PROVINCE_TO_CLASS.lookup "AB" = some cn2 ∧
         okProvider cn2 = Except.error e)) :=
  ⟨by decide, province_table_total okProvider "AB" (by decide)⟩

end TaxGen
